import Mathlib

/-
Shallow embedding of the pendulum simulations in pendulum.py and
double_pendulum.py: the vector fields (the Python call methods), the
solve pipeline (degree conversion, np.arange grid, the observable
contract of scipy.integrate.solve_ivp), and the trajectory accessor
properties with their try/except ladder.  Machine floats are modelled
as real numbers; Python exceptions as an error type threaded through
Except.
-/

set_option linter.unusedVariables false

namespace PendulumRepo

open Real

/-- Python exception values observable from the two modules. -/
inductive PyError where
  | attributeError (msg : String)
  | indexError
  | typeError
  | zeroDivisionError
  | valueError (msg : String)
  deriving DecidableEq

/-- A stored ODE solution object, as produced by the integration
collaborator: sample times sol.t and the state rows sol.y
(row 0 is theta resp. theta1, row 1 omega, row 2 theta2, ...). -/
structure OdeSolution where
  t : List ℝ
  y : List (List ℝ)

/-- The observable outcome of a successful solve call: the initial state
vector handed to the integration collaborator and the evaluation grid
t_eval; scipy returns exactly that grid back as sol.t, so tEval is
also the stored time sequence of the trajectory. -/
structure SolveCall where
  y0 : List ℝ
  tEval : List ℝ

/-- A Pendulum instance: configuration L, M, g (pendulum.py lines 49-52)
plus the optional stored trajectory attribute sol (absent until solve
has run). -/
structure Pendulum where
  L : ℝ
  M : ℝ
  g : ℝ
  sol : Option OdeSolution

/-- A DampenedPendulum instance: damping coefficient B plus the inherited
configuration (pendulum.py lines 177-179). -/
structure DampenedPendulum where
  B : ℝ
  L : ℝ
  M : ℝ
  g : ℝ
  sol : Option OdeSolution

/-- A DoublePendulum instance (double_pendulum.py lines 29-30). -/
structure DoublePendulum where
  M1 : ℝ
  M2 : ℝ
  L1 : ℝ
  L2 : ℝ
  G : ℝ
  sol : Option OdeSolution

/-- Pendulum.call (pendulum.py line 72):
returns (y[1], -self.g / self.L * np.sin(y[0])). -/
noncomputable def Pendulum.call (p : Pendulum) (t : ℝ) (y : ℝ × ℝ) : ℝ × ℝ :=
  (y.2, -p.g / p.L * Real.sin y.1)

/-- DampenedPendulum.call (pendulum.py line 199):
returns (y[1], -self.g / self.L * np.sin(y[0]) - self.B / self.M * y[1]). -/
noncomputable def DampenedPendulum.call (p : DampenedPendulum) (t : ℝ) (y : ℝ × ℝ) : ℝ × ℝ :=
  (y.2, -p.g / p.L * Real.sin y.1 - p.B / p.M * y.2)

/-- DoublePendulum.delta (double_pendulum.py lines 32-33). -/
def DoublePendulum.delta (d : DoublePendulum) (theta1 theta2 : ℝ) : ℝ :=
  theta2 - theta1

/-- DoublePendulum.domega1_dt (double_pendulum.py lines 35-51). -/
noncomputable def DoublePendulum.domega1_dt (d : DoublePendulum)
    (theta1 theta2 omega1 omega2 : ℝ) : ℝ :=
  (d.M2 * d.L1 * omega1 ^ 2 * Real.sin (d.delta theta1 theta2) * Real.cos (d.delta theta1 theta2)
      + d.M2 * d.G * Real.sin theta2 * Real.cos (d.delta theta1 theta2)
      + d.M2 * d.L2 * omega2 ^ 2 * Real.sin (d.delta theta1 theta2)
      - (d.M1 + d.M2) * d.G * Real.sin theta1)
    / ((d.M1 + d.M2) * d.L1 - d.M2 * d.L1 * (Real.cos (d.delta theta1 theta2)) ^ 2)

/-- DoublePendulum.domega2_dt (double_pendulum.py lines 53-73). -/
noncomputable def DoublePendulum.domega2_dt (d : DoublePendulum)
    (theta1 theta2 omega1 omega2 : ℝ) : ℝ :=
  (-d.M2 * d.L2 * omega2 ^ 2 * Real.sin (d.delta theta1 theta2) * Real.cos (d.delta theta1 theta2)
      + (d.M1 + d.M2) * d.G * Real.sin theta1 * Real.cos (d.delta theta1 theta2)
      - (d.M1 + d.M2) * d.L1 * omega1 ^ 2 * Real.sin (d.delta theta1 theta2)
      - (d.M1 + d.M2) * d.G * Real.sin theta2)
    / ((d.M1 + d.M2) * d.L2 - d.M2 * d.L2 * (Real.cos (d.delta theta1 theta2)) ^ 2)

/-- DoublePendulum.call (double_pendulum.py lines 75-104), on the state
(theta1, omega1, theta2, omega2). -/
noncomputable def DoublePendulum.call (d : DoublePendulum) (t : ℝ)
    (y : ℝ × ℝ × ℝ × ℝ) : ℝ × ℝ × ℝ × ℝ :=
  (y.2.1,
   d.domega1_dt y.1 y.2.2.1 y.2.1 y.2.2.2,
   y.2.2.2,
   d.domega2_dt y.1 y.2.2.1 y.2.1 y.2.2.2)

/-- The spec's reference equation for angularAcceleration1 (spec section 4.2),
written from the spec's words for comparison with the code. -/
noncomputable def specAngularAcceleration1 (M1 M2 L1 L2 G theta1 theta2 omega1 omega2 : ℝ) : ℝ :=
  (M2 * L1 * omega1 ^ 2 * Real.sin (theta2 - theta1) * Real.cos (theta2 - theta1)
      + M2 * G * Real.sin theta2 * Real.cos (theta2 - theta1)
      + M2 * L2 * omega2 ^ 2 * Real.sin (theta2 - theta1)
      - (M1 + M2) * G * Real.sin theta1)
    / ((M1 + M2) * L1 - M2 * L1 * (Real.cos (theta2 - theta1)) ^ 2)

/-- The spec's reference equation for angularAcceleration2 (spec section 4.2),
written from the spec's words for comparison with the code. -/
noncomputable def specAngularAcceleration2 (M1 M2 L1 L2 G theta1 theta2 omega1 omega2 : ℝ) : ℝ :=
  (-M2 * L2 * omega2 ^ 2 * Real.sin (theta2 - theta1) * Real.cos (theta2 - theta1)
      + (M1 + M2) * G * Real.sin theta1 * Real.cos (theta2 - theta1)
      - (M1 + M2) * L1 * omega1 ^ 2 * Real.sin (theta2 - theta1)
      - (M1 + M2) * G * Real.sin theta2)
    / ((M1 + M2) * L2 - M2 * L2 * (Real.cos (theta2 - theta1)) ^ 2)

/-- DoublePendulum() with the default parameters M1=M2=L1=L2=1, G=9.81
and no stored trajectory. -/
noncomputable def dpDefault : DoublePendulum :=
  ⟨1, 1, 1, 1, 9.81, none⟩

/-- np.radians applied to a state vector: elementwise degrees-to-radians
conversion, x * pi / 180. -/
noncomputable def npRadians (y : List ℝ) : List ℝ :=
  y.map (fun a => a * (Real.pi / 180))

/-- np.arange(0, stop, step): the values i * step for
0 <= i < ceil(stop / step) (numpy's documented length formula). -/
noncomputable def arange (stop step : ℝ) : List ℝ :=
  (List.range (Int.ceil (stop / step)).toNat).map (fun i : ℕ => (i : ℝ) * step)

open Classical in
/-- Evaluating Pendulum.__call__ with Python exception semantics
(pendulum.py line 72): self.g and self.L are the plain Python numbers
passed at construction, so the scalar division -self.g / self.L raises
ZeroDivisionError when L = 0 — before np.sin is ever applied; for any
other L the body only performs total arithmetic and returns the value
Pendulum.call. -/
noncomputable def Pendulum.callE (p : Pendulum) (t : ℝ) (y : ℝ × ℝ) :
    Except PyError (ℝ × ℝ) :=
  if p.L = 0 then .error .zeroDivisionError
  else .ok (p.call t y)

/-- Evaluating DoublePendulum.__call__ with Python exception semantics
(double_pendulum.py lines 35-104): every numerator and denominator
contains an np.sin/np.cos factor and is therefore a numpy float64, and
numpy float division by zero yields inf/nan with a warning instead of
raising, so the body never raises — it always returns the value
DoublePendulum.call. -/
noncomputable def DoublePendulum.callE (d : DoublePendulum) (t : ℝ)
    (y : ℝ × ℝ × ℝ × ℝ) : Except PyError (ℝ × ℝ × ℝ × ℝ) :=
  .ok (d.call t y)

open Classical in
/-- Observable contract of the external integration collaborator
scipy.integrate.solve_ivp (spec section 6): it first rejects with a
ValueError any requested evaluation time outside the time span; it then
constructs the solver, whose initialization evaluates the supplied
vector field at (t0, y0) — fInit is the outcome of that evaluation, and
any exception it raises propagates; otherwise the collaborator returns
the trajectory sampled at exactly the requested times, and we record
the initial state and the grid handed to it. -/
noncomputable def solve_ivp (fInit : Except PyError Unit) (t0 tf : ℝ)
    (y0 : List ℝ) (tEval : List ℝ) : Except PyError SolveCall :=
  if ∀ x ∈ tEval, min t0 tf ≤ x ∧ x ≤ max t0 tf then
    fInit.map (fun _ => (⟨y0, tEval⟩ : SolveCall))
  else
    .error (.valueError "Values in t_eval are not within t_span.")

open Classical in
/-- The common body of Pendulum.solve (pendulum.py lines 91-94) and
DoublePendulum.solve (double_pendulum.py lines 123-128) after the angle
conversion: t = np.arange(0, T + dt, dt) followed by
solve_ivp(self.call, (0, T), y0, t_eval=t), where fInit is the outcome
of the solver initialization evaluating self.call at the initial
condition.  np.arange raises ZeroDivisionError when the step dt is
zero, before the collaborator is invoked. -/
noncomputable def solveImpl (fInit : Except PyError Unit) (T dt : ℝ)
    (y1 : List ℝ) : Except PyError SolveCall :=
  if dt = 0 then .error .zeroDivisionError
  else solve_ivp fInit 0 T y1 (arange (T + dt) dt)

open Classical in
/-- The angle-unit boundary of both solve methods: the initial state is
rebound to np.radians(y0) exactly when angles = "deg". -/
noncomputable def convertAngles (angles : String) (y0 : List ℝ) : List ℝ :=
  if angles = "deg" then npRadians y0 else y0

/-- Pendulum.solve (pendulum.py lines 74-94): converts the initial state
from degrees once when angles = "deg", then runs the common body, the
vector field self.call evaluated by the solver initialization at the
(converted) initial condition. -/
noncomputable def Pendulum.solve (p : Pendulum) (y0 : List ℝ) (T dt : ℝ)
    (angles : String) : Except PyError SolveCall :=
  solveImpl
    ((p.callE 0 ((convertAngles angles y0).headI,
        (convertAngles angles y0).tail.headI)).map (fun _ => ()))
    T dt (convertAngles angles y0)

/-- DoublePendulum.solve (double_pendulum.py lines 106-128): identical
body on the 4-state (the Radau method choice and the stored self.dt are
invisible to the claims). -/
noncomputable def DoublePendulum.solve (d : DoublePendulum) (y0 : List ℝ) (T dt : ℝ)
    (angles : String) : Except PyError SolveCall :=
  solveImpl
    ((d.callE 0 ((convertAngles angles y0).headI,
        (convertAngles angles y0).tail.headI,
        (convertAngles angles y0).tail.tail.headI,
        (convertAngles angles y0).tail.tail.tail.headI)).map (fun _ => ()))
    T dt (convertAngles angles y0)

/-- The try/except ladder shared by the trajectory accessor properties
(pendulum.py lines 96-121, double_pendulum.py lines 167-192): an
AttributeError from the body is replaced by
AttributeError("You need to call solve"); any other error is caught by
the bare except clause, which prints "Something went wrong" and falls
off the end of the property, returning None. -/
def tryAccessor {α : Type} (body : Except PyError α) : Except PyError (Option α) :=
  match body with
  | .ok v => .ok (some v)
  | .error (.attributeError _) => .error (.attributeError "You need to call solve")
  | .error _ => .ok none

/-- Reading self.sol on an instance: a missing attribute raises
AttributeError. -/
def getSol (sol : Option OdeSolution) : Except PyError OdeSolution :=
  match sol with
  | none => .error (.attributeError "object has no attribute sol")
  | some s => .ok s

/-- Indexing sol.y[i]: an out-of-range row raises IndexError. -/
def getRow (rows : List (List ℝ)) (i : ℕ) : Except PyError (List ℝ) :=
  match rows.get? i with
  | some r => .ok r
  | none => .error .indexError

/-- Pendulum.t property (pendulum.py lines 96-103). -/
def Pendulum.tAcc (p : Pendulum) : Except PyError (Option (List ℝ)) :=
  tryAccessor ((getSol p.sol).bind (fun s => .ok s.t))

/-- Pendulum.theta property (pendulum.py lines 105-112): self.sol.y[0]. -/
def Pendulum.theta (p : Pendulum) : Except PyError (Option (List ℝ)) :=
  tryAccessor ((getSol p.sol).bind (fun s => getRow s.y 0))

/-- Pendulum.omega property (pendulum.py lines 114-121): self.sol.y[1]. -/
def Pendulum.omega (p : Pendulum) : Except PyError (Option (List ℝ)) :=
  tryAccessor ((getSol p.sol).bind (fun s => getRow s.y 1))

/-- The per-sample value of Pendulum.x: self.L * np.sin(theta). -/
noncomputable def Pendulum.xAt (p : Pendulum) (a : ℝ) : ℝ :=
  p.L * Real.sin a

/-- The per-sample value of Pendulum.y: -self.L * np.cos(theta). -/
noncomputable def Pendulum.yAt (p : Pendulum) (a : ℝ) : ℝ :=
  -p.L * Real.cos a

/-- Pendulum.x property (pendulum.py lines 123-125): elementwise
self.L * np.sin(self.theta); np.sin(None) raises TypeError should theta
have been swallowed into None. -/
noncomputable def Pendulum.x (p : Pendulum) : Except PyError (Option (List ℝ)) :=
  (Pendulum.theta p).bind (fun o =>
    match o with
    | some th => .ok (some (th.map (fun a => p.xAt a)))
    | none => .error .typeError)

/-- Pendulum.y property (pendulum.py lines 127-129): elementwise
-self.L * np.cos(self.theta). -/
noncomputable def Pendulum.yPos (p : Pendulum) : Except PyError (Option (List ℝ)) :=
  (Pendulum.theta p).bind (fun o =>
    match o with
    | some th => .ok (some (th.map (fun a => p.yAt a)))
    | none => .error .typeError)

/-- Pendulum.potential property (pendulum.py lines 131-133): elementwise
self.M * self.g * (self.y + self.L). -/
noncomputable def Pendulum.potential (p : Pendulum) : Except PyError (Option (List ℝ)) :=
  (Pendulum.yPos p).bind (fun o =>
    match o with
    | some ys => .ok (some (ys.map (fun v => p.M * p.g * (v + p.L))))
    | none => .error .typeError)

/-- DoublePendulum.t property (double_pendulum.py lines 167-174). -/
def DoublePendulum.tAcc (d : DoublePendulum) : Except PyError (Option (List ℝ)) :=
  tryAccessor ((getSol d.sol).bind (fun s => .ok s.t))

/-- DoublePendulum.theta1 property (double_pendulum.py lines 176-183):
self.sol.y[0]. -/
def DoublePendulum.theta1 (d : DoublePendulum) : Except PyError (Option (List ℝ)) :=
  tryAccessor ((getSol d.sol).bind (fun s => getRow s.y 0))

/-- DoublePendulum.theta2 property (double_pendulum.py lines 185-192):
self.sol.y[2]. -/
def DoublePendulum.theta2 (d : DoublePendulum) : Except PyError (Option (List ℝ)) :=
  tryAccessor ((getSol d.sol).bind (fun s => getRow s.y 2))

/-- The per-sample value of DoublePendulum.x1: self.L1 * np.sin(theta1). -/
noncomputable def DoublePendulum.x1At (d : DoublePendulum) (a : ℝ) : ℝ :=
  d.L1 * Real.sin a

/-- The per-sample value of DoublePendulum.y1: -self.L1 * np.cos(theta1). -/
noncomputable def DoublePendulum.y1At (d : DoublePendulum) (a : ℝ) : ℝ :=
  -d.L1 * Real.cos a

/-- The per-sample value of DoublePendulum.x2: x1 + self.L2 * np.sin(theta2),
taking the already-computed x1 sample. -/
noncomputable def DoublePendulum.x2At (d : DoublePendulum) (x1v b : ℝ) : ℝ :=
  x1v + d.L2 * Real.sin b

/-- The per-sample value of DoublePendulum.y2: y1 - self.L2 * np.cos(theta2),
taking the already-computed y1 sample. -/
noncomputable def DoublePendulum.y2At (d : DoublePendulum) (y1v b : ℝ) : ℝ :=
  y1v - d.L2 * Real.cos b

/-- DoublePendulum.x1 property (double_pendulum.py lines 194-196). -/
noncomputable def DoublePendulum.x1 (d : DoublePendulum) : Except PyError (Option (List ℝ)) :=
  (DoublePendulum.theta1 d).bind (fun o =>
    match o with
    | some th => .ok (some (th.map (fun a => d.x1At a)))
    | none => .error .typeError)

/-- DoublePendulum.y1 property (double_pendulum.py lines 198-200). -/
noncomputable def DoublePendulum.y1 (d : DoublePendulum) : Except PyError (Option (List ℝ)) :=
  (DoublePendulum.theta1 d).bind (fun o =>
    match o with
    | some th => .ok (some (th.map (fun a => d.y1At a)))
    | none => .error .typeError)

/-- DoublePendulum.x2 property (double_pendulum.py lines 202-204):
self.x1 + self.L2 * np.sin(self.theta2), elementwise. -/
noncomputable def DoublePendulum.x2 (d : DoublePendulum) : Except PyError (Option (List ℝ)) :=
  (DoublePendulum.x1 d).bind (fun o1 =>
    (DoublePendulum.theta2 d).bind (fun o2 =>
      match o1, o2 with
      | some a, some b => .ok (some (List.zipWith (fun u v => d.x2At u v) a b))
      | _, _ => .error .typeError))

/-- DoublePendulum.y2 property (double_pendulum.py lines 206-208):
self.y1 - self.L2 * np.cos(self.theta2), elementwise. -/
noncomputable def DoublePendulum.y2 (d : DoublePendulum) : Except PyError (Option (List ℝ)) :=
  (DoublePendulum.y1 d).bind (fun o1 =>
    (DoublePendulum.theta2 d).bind (fun o2 =>
      match o1, o2 with
      | some a, some b => .ok (some (List.zipWith (fun u v => d.y2At u v) a b))
      | _, _ => .error .typeError))

/-- DoublePendulum.potential property (double_pendulum.py lines 210-214):
P1 + P2 with P1 = M1*G*(y1 + L1), P2 = M2*G*(y2 + L1 + L2), elementwise. -/
noncomputable def DoublePendulum.potential (d : DoublePendulum) :
    Except PyError (Option (List ℝ)) :=
  (DoublePendulum.y1 d).bind (fun o1 =>
    (DoublePendulum.y2 d).bind (fun o2 =>
      match o1, o2 with
      | some a, some b =>
          .ok (some (List.zipWith
            (fun u v => d.M1 * d.G * (u + d.L1) + d.M2 * d.G * (v + d.L1 + d.L2)) a b))
      | _, _ => .error .typeError))

/-- Claim C1: for every configuration (L, M, g), time t and state
(theta, omega), Pendulum.call returns (omega, -(g/L)*sin(theta)), and
DampenedPendulum.call returns (omega, -(g/L)*sin(theta) - (B/M)*omega). -/
theorem derivative_single_correct :
    (∀ (L M g t theta omega : ℝ) (s : Option OdeSolution),
      Pendulum.call ⟨L, M, g, s⟩ t (theta, omega) =
        (omega, -(g / L) * Real.sin theta)) ∧
    (∀ (B L M g t theta omega : ℝ) (s : Option OdeSolution),
      DampenedPendulum.call ⟨B, L, M, g, s⟩ t (theta, omega) =
        (omega, -(g / L) * Real.sin theta - (B / M) * omega)) := by
  constructor
  · intro L M g t theta omega s
    simp [Pendulum.call, neg_div]
  · intro B L M g t theta omega s
    simp [DampenedPendulum.call, neg_div]

/-- Claim C9: both vector fields ignore the time argument — the systems
are autonomous. -/
theorem derivative_autonomous :
    ∀ (p : Pendulum) (d : DoublePendulum) (t1 t2 : ℝ)
      (y : ℝ × ℝ) (z : ℝ × ℝ × ℝ × ℝ),
      p.call t1 y = p.call t2 y ∧ d.call t1 z = d.call t2 z := by
  intro p d t1 t2 y z
  exact ⟨rfl, rfl⟩

/-- Claim C10: with damping coefficient B = 0, the damped vector field
coincides exactly with the undamped one at every configuration, time
and state. -/
theorem dampened_zero_refines :
    ∀ (L M g t : ℝ) (y : ℝ × ℝ) (s1 s2 : Option OdeSolution),
      DampenedPendulum.call ⟨0, L, M, g, s1⟩ t y = Pendulum.call ⟨L, M, g, s2⟩ t y := by
  intro L M g t y s1 s2
  simp [DampenedPendulum.call, Pendulum.call]

lemma arange_dvd (dt : ℝ) (n : ℕ) (hdt : dt ≠ 0) :
    arange ((n : ℝ) * dt + dt) dt = (List.range (n + 1)).map (fun i : ℕ => (i : ℝ) * dt) := by
  have h1 : ((n : ℝ) * dt + dt) / dt = ((n + 1 : ℕ) : ℝ) := by
    field_simp
    ring
  rw [arange, h1, Int.ceil_natCast, Int.toNat_natCast]

lemma grid_mem_span (T dt : ℝ) (n : ℕ) (hdt : 0 < dt) (hT : T = n * dt) :
    ∀ x ∈ (List.range (n + 1)).map (fun i : ℕ => (i : ℝ) * dt),
      min 0 T ≤ x ∧ x ≤ max 0 T := by
  have hT0 : (0 : ℝ) ≤ T := by rw [hT]; positivity
  intro x hx
  simp only [List.mem_map, List.mem_range] at hx
  rcases hx with ⟨i, hi, rfl⟩
  have hin : (i : ℝ) ≤ (n : ℝ) := by
    exact_mod_cast Nat.lt_succ_iff.mp hi
  constructor
  · rw [min_eq_left hT0]; positivity
  · rw [max_eq_right hT0, hT]
    exact mul_le_mul_of_nonneg_right hin (le_of_lt hdt)

lemma solveImpl_dvd (y1 : List ℝ) (T dt : ℝ) (n : ℕ) (hdt : 0 < dt)
    (hT : T = n * dt) :
    solveImpl (.ok ()) T dt y1 =
      .ok ⟨y1, (List.range (n + 1)).map (fun i : ℕ => (i : ℝ) * dt)⟩ := by
  rw [solveImpl, if_neg (ne_of_gt hdt)]
  have hgrid : arange (T + dt) dt = (List.range (n + 1)).map (fun i : ℕ => (i : ℝ) * dt) := by
    rw [hT]; exact arange_dvd dt n (ne_of_gt hdt)
  rw [hgrid, solve_ivp, if_pos (grid_mem_span T dt n hdt hT)]
  rfl

lemma solveImpl_dvd_err (e : PyError) (y1 : List ℝ) (T dt : ℝ) (n : ℕ)
    (hdt : 0 < dt) (hT : T = n * dt) :
    solveImpl (.error e) T dt y1 = .error e := by
  rw [solveImpl, if_neg (ne_of_gt hdt)]
  have hgrid : arange (T + dt) dt = (List.range (n + 1)).map (fun i : ℕ => (i : ℝ) * dt) := by
    rw [hT]; exact arange_dvd dt n (ne_of_gt hdt)
  rw [hgrid, solve_ivp, if_pos (grid_mem_span T dt n hdt hT)]
  rfl

lemma solveImpl_y0 (fInit : Except PyError Unit) (T dt : ℝ) (y1 : List ℝ)
    (r : SolveCall) (h : solveImpl fInit T dt y1 = .ok r) : r.y0 = y1 := by
  rw [solveImpl] at h
  by_cases hdt : dt = 0
  · rw [if_pos hdt] at h
    exact absurd h (by simp)
  · rw [if_neg hdt, solve_ivp] at h
    by_cases hall : ∀ x ∈ arange (T + dt) dt, min 0 T ≤ x ∧ x ≤ max 0 T
    · rw [if_pos hall] at h
      cases fInit with
      | error e => exact absurd h (by simp [Except.map])
      | ok u =>
          simp only [Except.map] at h
          cases h
          rfl
    · rw [if_neg hall] at h
      exact absurd h (by simp)

lemma pendulum_fieldInit_ok (p : Pendulum) (hL : p.L ≠ 0) (t : ℝ) (y : ℝ × ℝ) :
    (p.callE t y).map (fun _ => ()) = (.ok () : Except PyError Unit) := by
  rw [Pendulum.callE, if_neg hL]
  rfl

lemma pendulum_fieldInit_err (p : Pendulum) (hL : p.L = 0) (t : ℝ) (y : ℝ × ℝ) :
    (p.callE t y).map (fun _ => ()) = (.error .zeroDivisionError : Except PyError Unit) := by
  rw [Pendulum.callE, if_pos hL]
  rfl

lemma double_fieldInit_ok (d : DoublePendulum) (t : ℝ) (y : ℝ × ℝ × ℝ × ℝ) :
    (d.callE t y).map (fun _ => ()) = (.ok () : Except PyError Unit) := rfl

lemma convertAngles_rad (y0 : List ℝ) : convertAngles "rad" y0 = y0 := by
  rw [convertAngles, if_neg (by decide)]

lemma convertAngles_deg (y0 : List ℝ) : convertAngles "deg" y0 = npRadians y0 := by
  rw [convertAngles, if_pos rfl]

lemma pendulum_solve_rad_dvd (p : Pendulum) (hL : p.L ≠ 0) (y0 : List ℝ)
    (T dt : ℝ) (n : ℕ) (hdt : 0 < dt) (hT : T = n * dt) :
    Pendulum.solve p y0 T dt "rad" =
      .ok ⟨y0, (List.range (n + 1)).map (fun i : ℕ => (i : ℝ) * dt)⟩ := by
  rw [Pendulum.solve, convertAngles_rad, pendulum_fieldInit_ok p hL]
  exact solveImpl_dvd y0 T dt n hdt hT

lemma pendulum_solve_rad_L0 (p : Pendulum) (hL : p.L = 0) (y0 : List ℝ)
    (T dt : ℝ) (n : ℕ) (hdt : 0 < dt) (hT : T = n * dt) :
    Pendulum.solve p y0 T dt "rad" = .error .zeroDivisionError := by
  rw [Pendulum.solve, convertAngles_rad, pendulum_fieldInit_err p hL]
  exact solveImpl_dvd_err _ y0 T dt n hdt hT

lemma double_solve_rad_dvd (d : DoublePendulum) (y0 : List ℝ)
    (T dt : ℝ) (n : ℕ) (hdt : 0 < dt) (hT : T = n * dt) :
    DoublePendulum.solve d y0 T dt "rad" =
      .ok ⟨y0, (List.range (n + 1)).map (fun i : ℕ => (i : ℝ) * dt)⟩ := by
  rw [DoublePendulum.solve, convertAngles_rad, double_fieldInit_ok]
  exact solveImpl_dvd y0 T dt n hdt hT

/-- Claim C3 counterexample: with L = -1 <= 0 (and valid dt, T), solve
completes normally and returns a trajectory call record — no
InvalidConfiguration condition, indeed no error at all, is raised. -/
theorem solve_no_validation_cex :
    Pendulum.solve ⟨-1, 1, 9.81, none⟩ [0, 0] 1 (1 / 2) "rad" =
      .ok ⟨[0, 0], [0, 1 / 2, 1]⟩ := by
  have h := pendulum_solve_rad_dvd ⟨-1, 1, 9.81, none⟩ (by norm_num) [0, 0] 1 (1 / 2) 2
    (by norm_num) (by norm_num)
  rw [h]
  have hr : List.range 3 = [0, 1, 2] := rfl
  rw [hr]
  norm_num

/-- Claim C3 (amended): solve performs no validation of L, dt or T and
never signals an InvalidConfiguration condition.  With dt > 0 dividing
T, solve returns normally for every single-pendulum configuration with
L nonzero — every negative L, and T = 0, included — and for every
double-pendulum configuration whatsoever.  The failures that do occur
under the listed conditions are incidental ZeroDivisionErrors, not an
InvalidConfiguration: dt = 0 raises in np.arange before the integrator
runs, and L = 0 raises for the single pendulum when the solver
initialization first evaluates the Python scalar division g/L in the
vector field. -/
theorem solve_no_validation :
    ∀ (p : Pendulum) (d : DoublePendulum) (y0 yd : List ℝ) (T dt : ℝ) (n : ℕ),
      (p.L ≠ 0 → 0 < dt → T = n * dt →
        ∃ r, Pendulum.solve p y0 T dt "rad" = .ok r) ∧
      (0 < dt → T = n * dt →
        ∃ r, DoublePendulum.solve d yd T dt "rad" = .ok r) ∧
      Pendulum.solve p y0 T 0 "rad" = .error .zeroDivisionError ∧
      DoublePendulum.solve d yd T 0 "rad" = .error .zeroDivisionError ∧
      (p.L = 0 → 0 < dt → T = n * dt →
        Pendulum.solve p y0 T dt "rad" = .error .zeroDivisionError) := by
  intro p d y0 yd T dt n
  refine ⟨fun hL hdt hT => ⟨_, pendulum_solve_rad_dvd p hL y0 T dt n hdt hT⟩,
    fun hdt hT => ⟨_, double_solve_rad_dvd d yd T dt n hdt hT⟩,
    by simp [Pendulum.solve, solveImpl],
    by simp [DoublePendulum.solve, solveImpl],
    fun hL hdt hT => pendulum_solve_rad_L0 p hL y0 T dt n hdt hT⟩

/-- Claim C3 witness: the amended statement applied at dt = 1/2,
T = 1 = 2 * (1/2): with L = -1 (single) and L1 = -1 (double) solve
returns normally, and with L = 0 it raises the vector field's
ZeroDivisionError. -/
theorem solve_no_validation_witness :
    ((-1 : ℝ) ≠ 0 ∧ (0 : ℝ) < 1 / 2 ∧ (1 : ℝ) = (2 : ℕ) * (1 / 2) ∧
      (∃ r, Pendulum.solve ⟨-1, 1, 9.81, none⟩ [0, 0] 1 (1 / 2) "rad" = .ok r) ∧
      (∃ r, DoublePendulum.solve ⟨1, 1, -1, 1, 9.81, none⟩ [0, 0, 0, 0] 1 (1 / 2) "rad" = .ok r)) ∧
    ((0 : ℝ) = 0 ∧
      Pendulum.solve ⟨0, 1, 9.81, none⟩ [0, 0] 1 (1 / 2) "rad" = .error .zeroDivisionError) := by
  have h := solve_no_validation ⟨-1, 1, 9.81, none⟩ ⟨1, 1, -1, 1, 9.81, none⟩
    [0, 0] [0, 0, 0, 0] 1 (1 / 2) 2
  have h0 := solve_no_validation ⟨0, 1, 9.81, none⟩ ⟨1, 1, 1, 1, 9.81, none⟩
    [0, 0] [0, 0, 0, 0] 1 (1 / 2) 2
  exact ⟨⟨by norm_num, by norm_num, by norm_num,
      h.1 (by norm_num) (by norm_num) (by norm_num),
      h.2.1 (by norm_num) (by norm_num)⟩,
    rfl, h0.2.2.2.2 rfl (by norm_num) (by norm_num)⟩

/-- Claim C8: the initial state is converted from degrees to radians
exactly once at the solve boundary, if and only if the angle-unit
argument equals "deg"; the (un)converted state is what reaches the
integration collaborator, for both models. -/
theorem solve_converts_degrees_once :
    ∀ (p : Pendulum) (d : DoublePendulum) (y0 yd : List ℝ) (T dt : ℝ)
      (angles : String) (r rd : SolveCall),
      (Pendulum.solve p y0 T dt angles = .ok r →
        r.y0 = if angles = "deg" then npRadians y0 else y0) ∧
      (DoublePendulum.solve d yd T dt angles = .ok rd →
        rd.y0 = if angles = "deg" then npRadians yd else yd) := by
  intro p d y0 yd T dt angles r rd
  constructor
  · intro h
    rw [Pendulum.solve] at h
    exact solveImpl_y0 _ _ _ _ _ h
  · intro h
    rw [DoublePendulum.solve] at h
    exact solveImpl_y0 _ _ _ _ _ h

/-- Claim C8 witness: solving with angles = "deg" and initial state
[180, 0] passes exactly npRadians [180, 0] = [pi, 0] to the
collaborator. -/
theorem solve_converts_degrees_once_witness :
    ∃ r : SolveCall,
      Pendulum.solve ⟨1, 1, 9.81, none⟩ [180, 0] 1 (1 / 2) "deg" = .ok r ∧
      r.y0 = npRadians [180, 0] := by
  have h : Pendulum.solve ⟨1, 1, 9.81, none⟩ [180, 0] 1 (1 / 2) "deg" =
      .ok ⟨npRadians [180, 0], (List.range 3).map (fun i : ℕ => (i : ℝ) * (1 / 2))⟩ := by
    rw [Pendulum.solve, convertAngles_deg, pendulum_fieldInit_ok _ (by norm_num)]
    exact solveImpl_dvd _ 1 (1 / 2) 2 (by norm_num) (by norm_num)
  have h2 := (solve_converts_degrees_once ⟨1, 1, 9.81, none⟩ ⟨1, 1, 1, 1, 9.81, none⟩
    [180, 0] [0] 1 (1 / 2) "deg" _ ⟨[], []⟩).1 h
  rw [if_pos rfl] at h2
  exact ⟨_, h, h2⟩

/-- Claim C6 counterexample: with T = 1/4 and dt = 1/10 (dt does not
divide T), the claim predicts the stored grid [0, 0.1, 0.2, 0.25] —
the step grid plus the endpoint T.  The code instead builds
np.arange(0, 0.35, 0.1) = [0, 0.1, 0.2, 0.3], whose last point exceeds
T, and the integration collaborator rejects it with a ValueError: no
endpoint is ever added and no trajectory is stored. -/
theorem solve_grid_cex :
    Pendulum.solve ⟨1, 1, 9.81, none⟩ [0, 0] (1 / 4) (1 / 10) "rad" =
      .error (.valueError "Values in t_eval are not within t_span.") := by
  rw [Pendulum.solve, convertAngles_rad, solveImpl, if_neg (by norm_num)]
  have hgrid : arange (1 / 4 + 1 / 10) (1 / 10) = [0, 1 / 10, 2 / 10, 3 / 10] := by
    rw [arange]
    have h1 : ((1 : ℝ) / 4 + 1 / 10) / (1 / 10) = 7 / 2 := by norm_num
    have h2 : Int.ceil ((7 : ℝ) / 2) = 4 := by
      rw [Int.ceil_eq_iff]
      constructor <;> norm_num
    rw [h1, h2]
    have h3 : List.range (4 : ℤ).toNat = [0, 1, 2, 3] := rfl
    rw [h3]
    norm_num
  rw [hgrid, solve_ivp, if_neg]
  intro hall
  have h3 := (hall (3 / 10) (by norm_num [List.mem_cons])).2
  rw [max_eq_right (by norm_num : (0 : ℝ) ≤ 1 / 4)] at h3
  linarith

/-- Claim C6 (amended): after solve(y0, T=5, dt=0.01) the stored time
sequence is exactly [i * 0.01 for i = 0..500] — 501 points ending at
5.00 — for every single-pendulum configuration with L nonzero (at L = 0
solve instead raises the vector field's ZeroDivisionError, see C3) and
for every double-pendulum configuration.  In general the grid is
t_i = i * dt for i = 0..ceil((T+dt)/dt)-1: whenever dt divides T
(T = n * dt) this is i = 0..n = 0..floor(T/dt) and the endpoint T lies
on the grid; when dt does not divide T the code never adds the endpoint
T — the final arange point exceeds T and solve fails with the
collaborator's ValueError (see the counterexample). -/
theorem solve_grid :
    (∀ (p : Pendulum) (y0 : List ℝ), p.L ≠ 0 →
      Pendulum.solve p y0 5 (1 / 100) "rad" =
        .ok ⟨y0, (List.range 501).map (fun i : ℕ => (i : ℝ) * (1 / 100))⟩) ∧
    (∀ (d : DoublePendulum) (y0 : List ℝ),
      DoublePendulum.solve d y0 5 (1 / 100) "rad" =
        .ok ⟨y0, (List.range 501).map (fun i : ℕ => (i : ℝ) * (1 / 100))⟩) ∧
    (∀ (p : Pendulum) (y0 : List ℝ) (T dt : ℝ) (n : ℕ), p.L ≠ 0 → 0 < dt → T = n * dt →
      Pendulum.solve p y0 T dt "rad" =
        .ok ⟨y0, (List.range (n + 1)).map (fun i : ℕ => (i : ℝ) * dt)⟩) ∧
    (∀ (d : DoublePendulum) (y0 : List ℝ) (T dt : ℝ) (n : ℕ), 0 < dt → T = n * dt →
      DoublePendulum.solve d y0 T dt "rad" =
        .ok ⟨y0, (List.range (n + 1)).map (fun i : ℕ => (i : ℝ) * dt)⟩) := by
  have h500 : (5 : ℝ) = (500 : ℕ) * (1 / 100) := by norm_num
  refine ⟨?_, ?_, ?_, ?_⟩
  · intro p y0 hL
    exact pendulum_solve_rad_dvd p hL y0 5 (1 / 100) 500 (by norm_num) h500
  · intro d y0
    exact double_solve_rad_dvd d y0 5 (1 / 100) 500 (by norm_num) h500
  · intro p y0 T dt n hL hdt hT
    exact pendulum_solve_rad_dvd p hL y0 T dt n hdt hT
  · intro d y0 T dt n hdt hT
    exact double_solve_rad_dvd d y0 T dt n hdt hT

/-- Claim C6 witness: the general grid statement applied at L = 1,
T = 2, dt = 1/2 = 2/4, n = 4, giving the five points [0, 0.5, 1, 1.5, 2]. -/
theorem solve_grid_witness :
    (1 : ℝ) ≠ 0 ∧ (0 : ℝ) < 1 / 2 ∧ (2 : ℝ) = (4 : ℕ) * (1 / 2) ∧
    Pendulum.solve ⟨1, 1, 9.81, none⟩ [0, 1] 2 (1 / 2) "rad" =
      .ok ⟨[0, 1], (List.range 5).map (fun i : ℕ => (i : ℝ) * (1 / 2))⟩ := by
  refine ⟨by norm_num, by norm_num, by norm_num, ?_⟩
  exact (solve_grid.2.2.1 ⟨1, 1, 9.81, none⟩ [0, 1] 2 (1 / 2) 4 (by norm_num) (by norm_num)
    (by norm_num))

lemma sqrt_three_gt : (1.732050 : ℝ) < Real.sqrt 3 := by
  have h := Real.sq_sqrt (show (0 : ℝ) ≤ 3 by norm_num)
  have hnn := Real.sqrt_nonneg 3
  nlinarith

lemma sqrt_three_lt : Real.sqrt 3 < 1.732051 := by
  have h := Real.sq_sqrt (show (0 : ℝ) ≤ 3 by norm_num)
  have hnn := Real.sqrt_nonneg 3
  nlinarith

lemma domega1_default_val :
    dpDefault.domega1_dt 0 (Real.pi / 6) 0.15 0.15 = 1.9665 * Real.sqrt 3 + 0.009 := by
  have h3 : Real.sqrt 3 ^ 2 = 3 := Real.sq_sqrt (by norm_num)
  simp only [dpDefault, DoublePendulum.domega1_dt, DoublePendulum.delta]
  rw [sub_zero, Real.sin_pi_div_six, Real.cos_pi_div_six, Real.sin_zero]
  have hden : ((1 : ℝ) + 1) * 1 - 1 * 1 * (Real.sqrt 3 / 2) ^ 2 = 5 / 4 := by
    rw [div_pow, h3]; norm_num
  rw [hden, div_eq_iff (by norm_num : (5 : ℝ) / 4 ≠ 0)]
  ring

lemma domega2_default_val :
    dpDefault.domega2_dt 0 (Real.pi / 6) 0.15 0.15 = -0.0045 * Real.sqrt 3 - 7.866 := by
  have h3 : Real.sqrt 3 ^ 2 = 3 := Real.sq_sqrt (by norm_num)
  simp only [dpDefault, DoublePendulum.domega2_dt, DoublePendulum.delta]
  rw [sub_zero, Real.sin_pi_div_six, Real.cos_pi_div_six, Real.sin_zero]
  have hden : ((1 : ℝ) + 1) * 1 - 1 * 1 * (Real.sqrt 3 / 2) ^ 2 = 5 / 4 := by
    rw [div_pow, h3]; norm_num
  rw [hden, div_eq_iff (by norm_num : (5 : ℝ) / 4 ≠ 0)]
  ring

/-- Claim C2: DoublePendulum.call returns
(omega1, angularAcceleration1, omega2, angularAcceleration2) with the
accelerations given by the spec's reference equations, and at the
default parameters the accelerations at
(theta1, theta2, omega1, omega2) = (0, pi/6, 0.15, 0.15) are
approximately 3.415078 and -7.873794 (within 10^-5). -/
theorem derivative_double_correct :
    (∀ (d : DoublePendulum) (t theta1 omega1 theta2 omega2 : ℝ),
      d.call t (theta1, omega1, theta2, omega2) =
        (omega1,
         specAngularAcceleration1 d.M1 d.M2 d.L1 d.L2 d.G theta1 theta2 omega1 omega2,
         omega2,
         specAngularAcceleration2 d.M1 d.M2 d.L1 d.L2 d.G theta1 theta2 omega1 omega2)) ∧
    |dpDefault.domega1_dt 0 (Real.pi / 6) 0.15 0.15 - 3.415078| < 1 / 100000 ∧
    |dpDefault.domega2_dt 0 (Real.pi / 6) 0.15 0.15 + 7.873794| < 1 / 100000 := by
  refine ⟨?_, ?_, ?_⟩
  · intro d t theta1 omega1 theta2 omega2
    rfl
  · rw [domega1_default_val, abs_lt]
    constructor
    · nlinarith [sqrt_three_gt]
    · nlinarith [sqrt_three_lt]
  · rw [domega2_default_val, abs_lt]
    constructor
    · nlinarith [sqrt_three_lt]
    · nlinarith [sqrt_three_gt]

/-- Claim C4: on a freshly constructed instance (no stored trajectory),
the accessors theta, omega, x and potential of Pendulum and theta1,
theta2 and potential of DoublePendulum all raise the specific error
AttributeError("You need to call solve"), not a default value and not
the generic attribute-missing error. -/
theorem accessors_before_solve :
    ∀ (L M g M1 M2 L1 L2 G : ℝ),
      Pendulum.theta ⟨L, M, g, none⟩ =
          .error (.attributeError "You need to call solve") ∧
      Pendulum.omega ⟨L, M, g, none⟩ =
          .error (.attributeError "You need to call solve") ∧
      Pendulum.x ⟨L, M, g, none⟩ =
          .error (.attributeError "You need to call solve") ∧
      Pendulum.potential ⟨L, M, g, none⟩ =
          .error (.attributeError "You need to call solve") ∧
      DoublePendulum.theta1 ⟨M1, M2, L1, L2, G, none⟩ =
          .error (.attributeError "You need to call solve") ∧
      DoublePendulum.theta2 ⟨M1, M2, L1, L2, G, none⟩ =
          .error (.attributeError "You need to call solve") ∧
      DoublePendulum.potential ⟨M1, M2, L1, L2, G, none⟩ =
          .error (.attributeError "You need to call solve") := by
  intro L M g M1 M2 L1 L2 G
  refine ⟨rfl, rfl, rfl, rfl, rfl, rfl, rfl⟩

/-- Claim C5 (the code at the failing input): when reading the stored
trajectory raises an unexpected, non-AttributeError exception — here
theta on an instance whose stored sol.y has no rows, so sol.y[0]
raises IndexError — the accessor's bare except clause swallows the
error, prints a generic message and returns None, instead of letting
the error propagate to the caller. -/
theorem accessor_swallows_unexpected :
    Pendulum.theta ⟨1, 1, 9.81, some ⟨[], []⟩⟩ = .ok none ∧
    tryAccessor (Except.error PyError.indexError : Except PyError (List ℝ)) = .ok none := by
  exact ⟨rfl, rfl⟩

/-- Claim C7: at every sample the single pendulum position satisfies
x^2 + y^2 = L^2, and the double pendulum's second link satisfies
(x2 - x1)^2 + (y2 - y1)^2 = L2^2. -/
theorem radius_invariant :
    (∀ (p : Pendulum) (a : ℝ),
      (p.xAt a) ^ 2 + (p.yAt a) ^ 2 = p.L ^ 2) ∧
    (∀ (d : DoublePendulum) (x1v y1v b : ℝ),
      (d.x2At x1v b - x1v) ^ 2 + (d.y2At y1v b - y1v) ^ 2 = d.L2 ^ 2) := by
  constructor
  · intro p a
    have h := Real.sin_sq_add_cos_sq a
    simp only [Pendulum.xAt, Pendulum.yAt]
    linear_combination p.L ^ 2 * h
  · intro d x1v y1v b
    have h := Real.sin_sq_add_cos_sq b
    simp only [DoublePendulum.x2At, DoublePendulum.y2At]
    linear_combination d.L2 ^ 2 * h

end PendulumRepo
